import Mathlib

/-!
Verification development for the `@starkow/i18n` translation engine.

The engine (class `I18n` in the repository) is shallowly embedded below:
JSON-like dictionary trees become the inductive `Value` (with an explicit
`undefined` constructor, because the JavaScript code checks `=== undefined`
and can dereference an undefined receiver), class methods become pure
functions over an explicit `State`, thrown `I18nError`s and JavaScript
`TypeError`s become the `Except I18nException` monad, and the external
collaborators (the file system, the content decoder, and the micromustache
template renderer) are bundled in `Collab` and passed in explicitly.

Two variant drafts exist in the repository; `I18nV1` below embeds the full
variant (the one with `throwOnFailure`, `parser`, `extensions` and the
multi-key `__`), and `I18nV0` embeds the `__` method of the earlier draft
(`src/i18n.ts`), which differs in that it does call the template renderer.
-/

/-- A JavaScript/JSON value as the dictionaries use it: strings, numbers,
booleans, objects (insertion-ordered field lists), arrays, and `undefined`
(the value of an absent property, and of an unloaded field). -/
inductive Value where
  | str (s : String)
  | num (n : Int)
  | bool (b : Bool)
  | obj (fields : List (String × Value))
  | arr (elems : List Value)
  | undefined

/-- `true` exactly on `Value.undefined`; embeds the `=== undefined` checks. -/
def Value.isUndef : Value → Bool
  | .undefined => true
  | _ => false

/-- `true` exactly on `Value.str _`; embeds `typeof result === "string"` checks. -/
def Value.isStr : Value → Bool
  | .str _ => true
  | _ => false

/-- Embeds the `as string` cast the code applies to values it has already
checked to be strings (any other input is unreachable at those sites). -/
def Value.asString : Value → String
  | .str s => s
  | _ => ""

/-- Strict equality between a value and a string literal, as in `template !== key`. -/
def Value.strEq (v : Value) (s : String) : Bool :=
  match v with
  | .str t => t == s
  | _ => false

/-- Strict equality `v === 0` against the number literal `0`. -/
def Value.strictEqZero : Value → Bool
  | .num n => n == 0
  | _ => false

/-- The `a ?? b` nullish-coalescing operator (the dictionaries hold no `null`,
so only `undefined` coalesces). -/
def jsOr (a b : Value) : Value :=
  if a.isUndef then b else a

/-- Splitting accumulator for `splitOnChar` (kept structurally recursive so
that concrete paths evaluate inside the kernel). -/
def splitAux (c : Char) : List Char → List Char → List String
  | [], cur => [String.mk cur.reverse]
  | x :: xs, cur =>
    if x == c then String.mk cur.reverse :: splitAux c xs []
    else splitAux c xs (x :: cur)

/-- `s.split(c)` of JavaScript for a one-character separator: every occurrence
splits, empty pieces are kept, and the empty string yields `[""]`. -/
def splitOnChar (c : Char) (s : String) : List String :=
  splitAux c s.data []

/-- `s.includes(c)` for a one-character needle. -/
def containsChar (c : Char) (s : String) : Bool :=
  s.data.contains c

/-- The numeric value of a list of decimal digits. -/
def digitsVal : List Char → Nat → Nat
  | [], acc => acc
  | c :: cs, acc => digitsVal cs (acc * 10 + (c.toNat - 48))

/-- A canonical array-index property key, as JavaScript arrays expose them:
`"0"`, `"1"`, ... — all decimal digits with no superfluous leading zero
(non-canonical spellings such as `"00"` are not indices). -/
def parseIndex (k : String) : Option Nat :=
  match k.data with
  | [] => none
  | c :: cs =>
    if (c :: cs).all (fun d => d.isDigit) && (c != '0' || cs == []) then
      some (digitsVal (c :: cs) 0)
    else none

/-- First-match lookup of a field in an object's field list; `undefined` when
absent (objects built by the engine have unique keys). -/
def objGet : List (String × Value) → String → Value
  | [], _ => .undefined
  | (k, v) :: rest, key => if k == key then v else objGet rest key

/-- `acc[key] = v` on an object's field list: overwrite in place or append. -/
def objSet : List (String × Value) → String → Value → List (String × Value)
  | [], key, v => [(key, v)]
  | (k, w) :: rest, key, v =>
    if k == key then (key, v) :: rest else (k, w) :: objSet rest key v

/-- Thrown errors: the repository's single `I18nError` class (carrying its
message) and the JavaScript `TypeError` raised by property access on
`undefined`. -/
inductive I18nException where
  | i18nError (message : String)
  | typeError
  deriving DecidableEq

/-- Property access `receiver[key]`: `TypeError` on an `undefined` receiver;
field lookup on objects; index (and `length`) on arrays and strings; plain
`undefined` on numbers and booleans. -/
def jsIndex : Value → String → Except I18nException Value
  | .undefined, _ => .error .typeError
  | .obj fields, key => .ok (objGet fields key)
  | .arr elems, key =>
    if key == "length" then .ok (.num elems.length)
    else
      match parseIndex key with
      | some i => .ok ((elems.get? i).getD .undefined)
      | none => .ok .undefined
  | .str s, key =>
    if key == "length" then .ok (.num s.length)
    else
      match parseIndex key with
      | some i => .ok (((s.toList.get? i).map (fun c => Value.str c.toString)).getD .undefined)
      | none => .ok .undefined
  | .num _, _ => .ok .undefined
  | .bool _, _ => .ok .undefined

/-- The object-spread `{ ...object }`: objects copy their fields, `undefined`
(and primitives) spread to an empty object, arrays and strings spread to
index-keyed objects. -/
def spread : Value → Value
  | .obj fields => .obj fields
  | .arr elems => .obj (elems.enum.map (fun p => (toString p.1, p.2)))
  | .str s => .obj (s.toList.enum.map (fun p => (toString p.1, Value.str p.2.toString)))
  | _ => .obj []

/-- A micromustache variable scope (an object of variables); its internals
never matter to the engine, which passes it through to the renderer. -/
abbrev Scope := List (String × Value)

/-- The external collaborators of the engine: the file system listing and
reader, the default content decoder, and the micromustache `render`
function (template, scope, delimiter tags). -/
structure Collab where
  readdir : String → List String
  readFile : String → String
  defaultParser : String → Value
  render : Value → Scope → List String → String

/-- The `I18nOptions` configuration bag. -/
structure Options where
  localesPath : Option String
  defaultLocale : Option String
  currentLocale : Option String
  tags : Option (List String)
  throwOnFailure : Option Bool
  parser : Option (String → Value)
  extensions : Option (List String)

/-- The mutable fields of an `I18n` instance. -/
structure State where
  options : Options
  dictionaries : Value
  dictionary : Value
  languages : List String

/-- The `locale` getter (`options.currentLocale`). -/
def localeOf (st : State) : Option String :=
  st.options.currentLocale

/-- The `defaultLocale` getter. -/
def defaultLocaleOf (st : State) : Option String :=
  st.options.defaultLocale

/-- The `tags` getter (`options.tags ?? ["{{", "}}"]`). -/
def tagsOf (st : State) : List String :=
  st.options.tags.getD ["\x7b\x7b", "\x7d\x7d"]

/-- The `throwOnFailure` getter (`options.throwOnFailure ?? false`). -/
def throwOnFailureOf (st : State) : Bool :=
  st.options.throwOnFailure.getD false

/-- The `parser` getter (`options.parser ?? defaultParser`). -/
def parserOf (cb : Collab) (st : State) : String → Value :=
  st.options.parser.getD cb.defaultParser

/-- The `extensions` getter (`options.extensions ?? []`). -/
def extensionsOf (st : State) : List String :=
  st.options.extensions.getD []

/-- `getLanguages()`. -/
def getLanguages (st : State) : List String :=
  st.languages

/-- The `I18n` constructor: validates only that an explicitly given `tags`
array has length exactly 2, then records the options with everything else
unloaded. -/
def mkI18n (options : Options) : Except I18nException State :=
  match options.tags with
  | some ts =>
    if ts.length != 2 then
      .error (.i18nError "tags should consist of exactly two strings")
    else
      .ok { options := options, dictionaries := .undefined, dictionary := .undefined, languages := [] }
  | none =>
    .ok { options := options, dictionaries := .undefined, dictionary := .undefined, languages := [] }

/-- `file.lastIndexOf(".")`, as a position in the character list (`none` for `-1`). -/
def lastIndexOfDot (file : String) : Option Nat :=
  (file.toList.enum.filterMap (fun p => if p.2 == '.' then some p.1 else none)).getLast?

/-- `file.slice(file.lastIndexOf(".") + 1)`: the extension after the last dot,
or the whole name when there is no dot. -/
def extOf (file : String) : String :=
  match lastIndexOfDot file with
  | some i => String.mk (file.toList.drop (i + 1))
  | none => file

/-- One step of the `files.reduce` in `loadDictionaries`: derive the locale
key as the stem before the first `.`, append it to `languages` if new, and
store the decoded file content under it. -/
def loadDictStep (readContent : String → Value)
    (acc : List (String × Value) × List String) (path : String) :
    List (String × Value) × List String :=
  let key := (splitOnChar '.' path).headD ""
  let languages := if acc.2.contains key then acc.2 else acc.2 ++ [key]
  (objSet acc.1 key (readContent path), languages)

/-- `loadDictionaries()`: require `localesPath`; list the directory; filter by
the extension allow-list (empty list accepts everything); decode each file
with the configured parser, accumulating locale keys into `languages`; then
the (vacuous) `dictionaries.length === 0` check — `dictionaries` is a plain
object, so `.length` is its `"length"` property, compared strictly with `0`. -/
def loadDictionaries (cb : Collab) (st : State) : Except I18nException State :=
  match st.options.localesPath with
  | none => .error (.i18nError "localesPath is not defined")
  | some lp =>
    let exts := extensionsOf st
    let files := (cb.readdir lp).filter
      (fun file => if exts.isEmpty then true else exts.contains (extOf file))
    let readContent := fun path => parserOf cb st (cb.readFile (lp ++ "/" ++ path))
    let folded := files.foldl (loadDictStep readContent) ([], st.languages)
    if (objGet folded.1 "length").strictEqZero then
      .error (.i18nError "zero dictionaries found")
    else
      .ok { st with dictionaries := .obj folded.1, languages := folded.2 }

/-- `loadDictionary()`: `dictionaries![locale] ?? dictionaries![defaultLocale]`
(an unset locale indexes with the property key `"undefined"`, as the `as
string` cast makes JavaScript do), failing when neither resolves. -/
def loadDictionary (st : State) : Except I18nException State := do
  let a ← jsIndex st.dictionaries ((localeOf st).getD "undefined")
  let dictionary ←
    if a.isUndef then jsIndex st.dictionaries ((defaultLocaleOf st).getD "undefined")
    else pure a
  if dictionary.isUndef then
    .error (.i18nError "could not find dictionary")
  else
    .ok { st with dictionary := dictionary }

/-- The traversal loop of `lookup`: descend one property per path segment,
breaking to the whole path string as soon as a segment resolves to
`undefined`. -/
def lookupGo (path : String) : List String → Value → Except I18nException Value
  | [], result => .ok result
  | key :: rest, result => do
    let r ← jsIndex result key
    if r.isUndef then .ok (.str path) else lookupGo path rest r

/-- `lookup(object, path, failOnNonString)`: split on `.`, traverse from a
shallow copy of the object, and afterwards fail if the result is not a
string while `failOnNonString` is set. -/
def lookup (object : Value) (path : String) (failOnNonString : Bool) :
    Except I18nException Value := do
  let result ← lookupGo path (splitOnChar '.' path) (spread object)
  if !result.isStr && failOnNonString then
    .error (.i18nError "failed to lookup: the result is not a string")
  else
    .ok result

/-- `getTemplate(key, failOnNonString, dictionary)`: dotted keys go through
`lookup`; flat keys index the dictionary directly, echo the key when absent,
and fail on a non-string result when `failOnNonString` is set. -/
def getTemplate (key : String) (failOnNonString : Bool) (dictionary : Value) :
    Except I18nException Value :=
  if containsChar '.' key then
    lookup dictionary key failOnNonString
  else do
    let template ← jsIndex dictionary key
    if template.isUndef then
      .ok (.str key)
    else if !template.isStr && failOnNonString then
      .error (.i18nError "failed to lookup: the result is not a string")
    else
      .ok template

/-- `preload(requireLocale)`: load all dictionaries if not yet loaded; resolve
the current dictionary if required and not yet resolved; then require a
configured current locale when `requireLocale` is set. -/
def preload (cb : Collab) (st : State) (requireLocale : Bool) :
    Except I18nException State := do
  let st ← if st.dictionaries.isUndef then loadDictionaries cb st else pure st
  let st ← if st.dictionary.isUndef && requireLocale then loadDictionary st else pure st
  if (localeOf st).isNone && requireLocale then
    .error (.i18nError "currentLocale is not defined")
  else
    .ok st

/-- `__r(key)`: preload, non-strict `getTemplate`, and then — unconditionally,
found or not — throw when `throwOnFailure` is enabled. -/
def dunderR (cb : Collab) (st : State) (key : String) : Except I18nException Value := do
  let st ← preload cb st true
  let template ← getTemplate key false st.dictionary
  if throwOnFailureOf st then
    .error (.i18nError "failed to get raw entity by key")
  else
    .ok template

/-- One key or an ordered fallback list of keys, as `__` accepts them. -/
inductive MaybeArray where
  | one (key : String)
  | many (keys : List String)

/-- The candidate loop of `__`: strict `getTemplate` per key, returning the
first template that differs from its key (both branches of the loop return
it identically). -/
def dunderGo (isInitiallyAnArray : Bool) (dict : Value) :
    List String → Except I18nException (Option String)
  | [] => .ok none
  | key :: rest => do
    let template ← getTemplate key true dict
    if isInitiallyAnArray && !template.strEq key then
      .ok (some template.asString)
    else if !template.strEq key then
      .ok (some template.asString)
    else
      dunderGo isInitiallyAnArray dict rest

/-- `__(keys, scope)` of the full variant: preload, scan the candidates, and
on a total miss throw (when `throwOnFailure`) or return the last candidate.
The found template is returned as-is; `scope` and the renderer are never
used by this variant. -/
def dunder (cb : Collab) (st : State) (keys : MaybeArray) (scope : Scope) :
    Except I18nException Value := do
  let st ← preload cb st true
  let isInitiallyAnArray := match keys with | .many _ => true | .one _ => false
  let actualKeys := match keys with | .one k => [k] | .many ks => ks
  match ← dunderGo isInitiallyAnArray st.dictionary actualKeys with
  | some template => .ok (.str template)
  | none =>
    if throwOnFailureOf st then
      .error (.i18nError "failed to render the template by keys")
    else
      .ok ((actualKeys.getLast?.map Value.str).getD .undefined)

/-- `__(key, scope, default_)` of the earlier draft (`src/i18n.ts`): strict
`getTemplate`, the default value on a miss when one was given, and otherwise
the template pushed through the renderer. -/
def dunderV0 (cb : Collab) (st : State) (key : String) (scope : Scope)
    (defaultValue : Option String) : Except I18nException Value := do
  let st ← preload cb st true
  let template ← getTemplate key true st.dictionary
  match defaultValue with
  | some d =>
    if template.strEq key then .ok (.str d)
    else .ok (.str (cb.render template scope (tagsOf st)))
  | none => .ok (.str (cb.render template scope (tagsOf st)))

/-- The six universal plural categories. -/
inductive Rule where
  | zero | one | two | few | many | other
  deriving DecidableEq

/-- Modelled from the spec: the external standards-compliant plural-rule
evaluator (`Intl.PluralRules` in the code, which the spec scopes out as a
collaborator), fixed to the reference locale with the richest rule set.
CLDR cardinal rules for that locale, restricted to integer counts:
`n = 0 → zero`, `n = 1 → one`, `n = 2 → two`, `n % 100 ∈ 3..10 → few`,
`n % 100 ∈ 11..99 → many`, otherwise `other`. -/
def pluralRulesSelect (count : Int) : Rule :=
  let n := count.natAbs
  if n == 0 then .zero
  else if n == 1 then .one
  else if n == 2 then .two
  else if 3 ≤ n % 100 && n % 100 ≤ 10 then .few
  else if 11 ≤ n % 100 && n % 100 ≤ 99 then .many
  else .other

/-- `__n(count, key, scope)`: raw-fetch the plural object, resolve the
category, build the `templateByRule` table (which has entries only for
`zero`, `one`, `two`, `few`), coalesce with `obj.many ?? obj.other`, and
render the selected template (or fall back to the key / throw). -/
def dunderN (cb : Collab) (st : State) (count : Int) (key : String) (scope : Scope) :
    Except I18nException Value := do
  let obj ← dunderR cb st key
  if obj.isUndef then
    if throwOnFailureOf st then
      .error (.i18nError "failed to find the template by key")
    else
      .ok (.str key)
  else do
    let rule := pluralRulesSelect count
    let zeroV ← jsIndex obj "zero"
    let oneV ← jsIndex obj "one"
    let twoV ← jsIndex obj "two"
    let fewV ← jsIndex obj "few"
    let manyV ← jsIndex obj "many"
    let otherV ← jsIndex obj "other"
    let templateByRule : Rule → Value := fun r =>
      match r with
      | .zero => jsOr zeroV (jsOr otherV manyV)
      | .one => jsOr oneV otherV
      | .two => jsOr twoV (jsOr fewV manyV)
      | .few => jsOr fewV manyV
      | .many => .undefined
      | .other => .undefined
    let template := jsOr (templateByRule rule) (jsOr manyV otherV)
    if template.isUndef then
      if throwOnFailureOf st then
        .error (.i18nError "failed to render the plural template by key")
      else
        .ok (.str key)
    else
      .ok (.str (cb.render template scope (tagsOf st)))

/-- The language loop of `__l`: fetch each language's dictionary (a bare
`dictionaries![language]`, which may be `undefined`), strict `getTemplate`
against it, and append the rendered template when it differs from the key. -/
def dunderLGo (cb : Collab) (st : State) (key : String) (scope : Scope) :
    List String → List String → Except I18nException (List String)
  | [], templates => .ok templates
  | language :: rest, templates => do
    let dictionary ← jsIndex st.dictionaries language
    let template ← getTemplate key true dictionary
    if !template.strEq key then
      dunderLGo cb st key scope rest (templates ++ [cb.render template scope (tagsOf st)])
    else
      dunderLGo cb st key scope rest templates

/-- `__l(key, scope)`: preload without requiring a locale, scan every known
language, and throw on an empty result when `throwOnFailure` is enabled. -/
def dunderL (cb : Collab) (st : State) (key : String) (scope : Scope) :
    Except I18nException (List String) := do
  let st ← preload cb st false
  let templates ← dunderLGo cb st key scope st.languages []
  if templates.isEmpty && throwOnFailureOf st then
    .error (.i18nError "failed to get a list by key")
  else
    .ok templates

/-! ## General lemmas about the embedded engine -/

/-- Reduction of a successful bind in the exception monad. -/
@[simp] theorem okThenBind {α β : Type} (a : α) (f : α → Except I18nException β) :
    (Except.ok a >>= f : Except I18nException β) = f a := rfl

/-- Reduction of a failed bind in the exception monad. -/
@[simp] theorem errorThenBind {α β : Type} (e : I18nException) (f : α → Except I18nException β) :
    (Except.error e >>= f : Except I18nException β) = .error e := rfl

/-- A value whose `isUndef` test is true is `undefined`. -/
theorem Value.eq_undefined_of_isUndef {v : Value} (h : v.isUndef = true) : v = .undefined := by
  cases v <;> simp_all [Value.isUndef]

/-- `preload` with a required locale is the identity on a state whose
dictionaries are loaded, whose current dictionary is resolved, and whose
current locale is set. -/
theorem preload_resolved (cb : Collab) (st : State) (loc : String)
    (h1 : st.dictionaries.isUndef = false) (h2 : st.dictionary.isUndef = false)
    (hloc : localeOf st = some loc) :
    preload cb st true = .ok st := by
  simp [preload, h1, h2, hloc]

/-- `preload` without a required locale is the identity on any state whose
dictionaries are loaded, whatever the current locale is. -/
theorem preload_nolocale (cb : Collab) (st : State)
    (h1 : st.dictionaries.isUndef = false) :
    preload cb st false = .ok st := by
  simp [preload, h1]

/-! ## C1 -/

/-- A collaborator whose renderer maps every template to `"RENDERED"`, making
any call into the Template Renderer visible in the output. -/
def c1Collab : Collab :=
  { readdir := fun _ => []
    readFile := fun _ => ""
    defaultParser := fun _ => .obj []
    render := fun _ _ _ => "RENDERED" }

/-- A configured options bag with an active locale. -/
def c1Options : Options :=
  { localesPath := some "locales"
    defaultLocale := none
    currentLocale := some "en"
    tags := none
    throwOnFailure := none
    parser := none
    extensions := none }

/-- A dictionary binding `greet` to a template that mentions a variable. -/
def c1Dict : Value := .obj [("greet", .str "hi :name")]

/-- A fully loaded engine state over `c1Dict`. -/
def c1State : State :=
  { options := c1Options
    dictionaries := .obj [("en", c1Dict)]
    dictionary := c1Dict
    languages := ["en"] }

/-- C1: the claim fails on the full variant: for the key `greet`, whose strict
lookup resolves to the template `hi :name` (different from the key), `__`
returns the raw un-interpolated template and never invokes the Template
Renderer — even though the renderer here would have produced `RENDERED` —
while the earlier draft's `__` does return the renderer's output on the same
state, showing the interpolating behavior is the design's intent. -/
theorem c1_translate_skips_renderer :
    dunder c1Collab c1State (.one "greet") [("name", .str "world")] = .ok (.str "hi :name") ∧
    dunderV0 c1Collab c1State "greet" [("name", .str "world")] none = .ok (.str "RENDERED") ∧
    "hi :name" ≠ "RENDERED" :=
  ⟨rfl, rfl, by decide⟩

/-! ## C2 -/

/-- Options with the throw-on-failure flag enabled. -/
def c2OptionsThrow : Options :=
  { c1Options with throwOnFailure := some true }

/-- A loaded state over a dictionary that does contain the key `greet`,
with throw-on-failure enabled. -/
def c2StateThrow : State :=
  { options := c2OptionsThrow
    dictionaries := .obj [("en", c1Dict)]
    dictionary := c1Dict
    languages := ["en"] }

/-- The same state with throw-on-failure disabled. -/
def c2StatePlain : State :=
  { c2StateThrow with options := c1Options }

/-- C2: the claim fails on the code: `greet` is present in the current
dictionary (the flag-off call returns its value), yet `__r` with
throw-on-failure enabled throws its `RawMiss`-kind error anyway — the throw
in `__r` is unconditional, not gated on a miss. -/
theorem c2_raw_throws_despite_hit :
    dunderR c1Collab c2StateThrow "greet" = .error (.i18nError "failed to get raw entity by key") ∧
    dunderR c1Collab c2StatePlain "greet" = .ok (.str "hi :name") :=
  ⟨rfl, rfl⟩

/-! ## C5 -/

/-- A collaborator whose directory listing is empty. -/
def c5Collab : Collab :=
  { c1Collab with readdir := fun _ => [] }

/-- An unloaded state with a configured locales path. -/
def c5State : State :=
  { options := c1Options
    dictionaries := .undefined
    dictionary := .undefined
    languages := [] }

/-- The same state with no locales path configured. -/
def c5StateNoPath : State :=
  { c5State with options := { c1Options with localesPath := none } }

/-- C5: the `MissingConfig` half holds, but the `EmptyResult` half fails on
the code: with a configured path and a directory listing that yields zero
dictionaries, `loadDictionaries` succeeds silently with an empty dictionary
set — the `dictionaries.length === 0` guard tests the `"length"` property of
a plain object, which is `undefined`, never `0`. -/
theorem c5_empty_result_unreachable :
    loadDictionaries c5Collab c5StateNoPath = .error (.i18nError "localesPath is not defined") ∧
    loadDictionaries c5Collab c5State = .ok { c5State with dictionaries := .obj [], languages := [] } :=
  ⟨rfl, rfl⟩

/-! ## C6 -/

/-- An options bag whose delimiter pair consists of two equal, empty markers. -/
def c6Options : Options :=
  { c1Options with tags := some ["", ""] }

/-- C6 counterexample: a delimiter pair of two equal and empty markers — which
the claim says must be rejected with `InvalidDelimiters` — is accepted by the
constructor, because only the pair's length is validated. -/
theorem c6_degenerate_tags_accepted :
    mkI18n c6Options =
      .ok { options := c6Options, dictionaries := .undefined, dictionary := .undefined, languages := [] } :=
  rfl

/-- C6 amended: construction with an explicit delimiter pair succeeds exactly
when the pair has length two; neither distinctness nor non-emptiness of the
markers is validated. -/
theorem c6_amended_length_only (opts : Options) (ts : List String)
    (h : opts.tags = some ts) :
    (∃ st, mkI18n opts = .ok st) ↔ ts.length = 2 := by
  constructor
  · rintro ⟨st, hst⟩
    by_contra hlen
    simp [mkI18n, h, hlen] at hst
  · intro hlen
    exact ⟨{ options := opts, dictionaries := .undefined, dictionary := .undefined, languages := [] },
      by simp [mkI18n, h, hlen]⟩

/-- Witness for C6 amended: a two-marker pair is accepted. -/
theorem c6_amended_length_only_witness :
    (∃ st, mkI18n { c1Options with tags := some ["<", ">"] } = .ok st) ↔
      (["<", ">"] : List String).length = 2 :=
  c6_amended_length_only { c1Options with tags := some ["<", ">"] } ["<", ">"] rfl

/-! ## C7 -/

/-- The traversal of `lookup` hits an absent value strictly before the path is
exhausted: descending segment by segment, some segment resolves to
`undefined` (scanning stops at the first such segment). -/
def missesAt : Value → List String → Bool
  | _, [] => false
  | v, key :: rest =>
    match jsIndex v key with
    | .ok r => if r.isUndef then true else missesAt r rest
    | .error _ => false

/-- Any traversal that hits a miss yields the whole path string. -/
theorem lookupGo_of_missesAt (path : String) :
    ∀ (segs : List String) (v : Value), missesAt v segs = true →
      lookupGo path segs v = .ok (.str path) := by
  intro segs
  induction segs with
  | nil => intro v h; simp [missesAt] at h
  | cons key rest ih =>
    intro v h
    cases hj : jsIndex v key with
    | error e => simp [missesAt, hj] at h
    | ok r =>
      simp only [missesAt, hj] at h
      simp only [lookupGo, hj, okThenBind]
      by_cases hr : r.isUndef = true
      · simp [hr]
      · simp [hr] at h
        simp [hr, ih r h]

/-- The dictionary of the spec's own example: `{a: {b: [{c: "v"}]}}`. -/
def c7Dict : Value := .obj [("a", .obj [("b", .arr [.obj [("c", .str "v")]])])]

/-- C7: dotted-path lookup (i) resolves `a.b.0.c` against
`{a: {b: [{c: "v"}]}}` to `"v"` (array indices as string segments), (ii) for
every object and path whose traversal hits an absent value mid-way, stops and
returns the original path string, in strict and non-strict mode alike, and
(iii) in strict mode fails with the non-string-result error whenever the
traversal completes on a non-string value. -/
theorem c7_lookup_contract :
    (lookup c7Dict "a.b.0.c" true = .ok (.str "v")) ∧
    (∀ (object : Value) (path : String) (failOnNonString : Bool),
      missesAt (spread object) (splitOnChar '.' path) = true →
      lookup object path failOnNonString = .ok (.str path)) ∧
    (∀ (object : Value) (path : String) (v : Value),
      lookupGo path (splitOnChar '.' path) (spread object) = .ok v →
      v.isStr = false →
      lookup object path true = .error (.i18nError "failed to lookup: the result is not a string")) := by
  refine ⟨rfl, ?_, ?_⟩
  · intro object path failOnNonString h
    unfold lookup
    rw [lookupGo_of_missesAt path (splitOnChar '.' path) (spread object) h]
    simp [Value.isStr]
  · intro object path v hgo hstr
    unfold lookup
    rw [hgo]
    simp [hstr]

/-- Witness for C7: the same structure with `b` absent yields the path string
itself, and a strict lookup of `a.b` (which resolves to an array) errors. -/
theorem c7_lookup_contract_witness :
    lookup (Value.obj [("a", Value.obj [])]) "a.b.0.c" true = .ok (.str "a.b.0.c") ∧
    lookup c7Dict "a.b" true = .error (.i18nError "failed to lookup: the result is not a string") :=
  ⟨c7_lookup_contract.2.1 (Value.obj [("a", Value.obj [])]) "a.b.0.c" true rfl,
   c7_lookup_contract.2.2 c7Dict "a.b" (.arr [.obj [("c", .str "v")]]) rfl rfl⟩

/-! ## C10 -/

/-- C10: `__l` is only total under the languages/dictionaries invariant: on a
state whose language list names a language with no loaded dictionary, the
bare `dictionaries![language]` is `undefined`, and the flat-key lookup in
`getTemplate` dereferences it, so `__l` fails with a `TypeError` instead of
skipping the language. -/
theorem c10_stale_language_type_error (cb : Collab) (st : State) (key : String)
    (scope : Scope) (D : List (String × Value)) (lang : String)
    (hD : st.dictionaries = .obj D)
    (hlangs : st.languages = [lang])
    (hmiss : (objGet D lang).isUndef = true)
    (hflat : containsChar '.' key = false) :
    dunderL cb st key scope = .error .typeError := by
  have hundef : objGet D lang = .undefined := Value.eq_undefined_of_isUndef hmiss
  have hpre : preload cb st false = .ok st := preload_nolocale cb st (by rw [hD]; rfl)
  unfold dunderL
  rw [hpre]
  simp only [okThenBind]
  rw [hlangs]
  unfold dunderLGo
  rw [hD]
  simp only [jsIndex, hundef, okThenBind]
  unfold getTemplate
  rw [hflat]
  simp [jsIndex]

/-- A three-language state whose language list still remembers `fr`, although
the reloaded dictionary set lacks it. -/
def c10State : State :=
  { options := { c1Options with currentLocale := none }
    dictionaries := .obj [("en", .obj [("k", .str "K-en")]), ("ru", .obj [])]
    dictionary := .undefined
    languages := ["fr"] }

/-- Witness for C10: `__l` on the stale state fails with a `TypeError`. -/
theorem c10_stale_language_type_error_witness :
    dunderL c1Collab c10State "k" [] = .error .typeError :=
  c10_stale_language_type_error c1Collab c10State "k" []
    [("en", .obj [("k", .str "K-en")]), ("ru", .obj [])] "fr" rfl rfl rfl rfl

/-! ## C3 -/

/-- The hit test of the candidate loop of `__`: the strict template for the
key differs from the key itself (a strict-lookup error also ends the scan). -/
def isHit (dict : Value) (key : String) : Bool :=
  match getTemplate key true dict with
  | .ok t => !t.strEq key
  | .error _ => true

/-- The candidate loop returns, independently of the is-array flag, the
result of running the loop on just the first hit, and `none` when no
candidate hits. -/
theorem dunderGo_eq_find (dict : Value) (b b2 : Bool) (ks : List String)
    (hok : ∀ k ∈ ks, ∃ s, getTemplate k true dict = .ok (.str s)) :
    dunderGo b dict ks =
      match ks.find? (isHit dict) with
      | some k0 => dunderGo b2 dict [k0]
      | none => .ok none := by
  induction ks with
  | nil => simp [dunderGo, List.find?]
  | cons k rest ih =>
    obtain ⟨s, hs⟩ := hok k (by simp)
    have hok' : ∀ k ∈ rest, ∃ s, getTemplate k true dict = .ok (.str s) :=
      fun k hk => hok k (by simp [hk])
    by_cases hsk : (s == k) = true
    · have hmiss : isHit dict k = false := by
        simp [isHit, hs, Value.strEq, hsk]
      have hstep : dunderGo b dict (k :: rest) = dunderGo b dict rest := by
        simp [dunderGo, hs, Value.strEq, hsk]
      have hfind : List.find? (isHit dict) (k :: rest) = List.find? (isHit dict) rest := by
        simp [List.find?_cons, hmiss]
      rw [hstep, hfind]
      exact ih hok'
    · have hhit : isHit dict k = true := by
        simp [isHit, hs, Value.strEq, hsk]
      have hfind : List.find? (isHit dict) (k :: rest) = some k := by
        simp [List.find?_cons, hhit]
      rw [hfind]
      cases b <;> cases b2 <;> simp [dunderGo, hs, Value.strEq, hsk]

/-- C3: on a resolved state whose strict lookups all succeed, `__` on an
ordered candidate list returns exactly what it returns for the first
candidate whose strict lookup differs from the candidate itself, and when
every candidate resolves to itself it returns the last candidate's key
verbatim (no renderer involved: this variant's `__` never interpolates). -/
theorem c3_first_match_fallback (cb : Collab) (st : State) (loc : String)
    (ks : List String) (scope : Scope)
    (hne : ks ≠ [])
    (h1 : st.dictionaries.isUndef = false)
    (h2 : st.dictionary.isUndef = false)
    (hloc : localeOf st = some loc)
    (hthrow : throwOnFailureOf st = false)
    (hok : ∀ k ∈ ks, ∃ s, getTemplate k true st.dictionary = .ok (.str s)) :
    match ks.find? (isHit st.dictionary) with
    | some k0 => dunder cb st (.many ks) scope = dunder cb st (.one k0) scope
    | none => dunder cb st (.many ks) scope = .ok (.str (ks.getLast hne)) := by
  have hpre := preload_resolved cb st loc h1 h2 hloc
  cases hfind : ks.find? (isHit st.dictionary) with
  | some k0 =>
    have hmem : k0 ∈ ks := List.mem_of_find?_eq_some hfind
    have hhit : isHit st.dictionary k0 = true := List.find?_some hfind
    obtain ⟨s, hs⟩ := hok k0 hmem
    have hsk : (s == k0) = false := by
      simpa [isHit, hs, Value.strEq] using hhit
    simp only [dunder, hpre, okThenBind]
    rw [dunderGo_eq_find st.dictionary true false ks hok, hfind]
    simp [dunderGo, hs, Value.strEq, hsk]
  | none =>
    simp only [dunder, hpre, okThenBind]
    rw [dunderGo_eq_find st.dictionary true false ks hok, hfind]
    simp [hthrow, List.getLast?_eq_getLast ks hne]

/-- The README's own fallback-list dictionary: only `bar` resolves. -/
def c3Dict : Value := .obj [("bar", .str "quix")]

/-- A resolved state over `c3Dict`. -/
def c3State : State :=
  { options := c1Options
    dictionaries := .obj [("en", c3Dict)]
    dictionary := c3Dict
    languages := ["en"] }

/-- Witness for C3: `__(["foo","bar","baz"])` behaves as `__("bar")` (first
hit), and `__(["foo","qux","baz"])` (no hit) returns `"baz"` verbatim. -/
theorem c3_first_match_fallback_witness :
    (dunder c1Collab c3State (.many ["foo", "bar", "baz"]) [] =
      dunder c1Collab c3State (.one "bar") []) ∧
    (dunder c1Collab c3State (.many ["foo", "qux", "baz"]) [] = .ok (.str "baz")) :=
  ⟨c3_first_match_fallback c1Collab c3State "en" ["foo", "bar", "baz"] []
      (by simp) rfl rfl rfl rfl
      (by intro k hk
          fin_cases hk
          · exact ⟨"foo", rfl⟩
          · exact ⟨"quix", rfl⟩
          · exact ⟨"baz", rfl⟩),
   c3_first_match_fallback c1Collab c3State "en" ["foo", "qux", "baz"] []
      (by simp) rfl rfl rfl rfl
      (by intro k hk
          fin_cases hk
          · exact ⟨"foo", rfl⟩
          · exact ⟨"qux", rfl⟩
          · exact ⟨"baz", rfl⟩)⟩

/-! ## C8 -/

/-- The per-language outcome `__l` accumulates: the rendered strict template
when it differs from the key, nothing otherwise. -/
def listEntry (cb : Collab) (st : State) (key : String) (scope : Scope)
    (D : List (String × Value)) (l : String) : Option String :=
  match getTemplate key true (objGet D l) with
  | .ok t => if t.strEq key then none else some (cb.render t scope (tagsOf st))
  | .error _ => none

/-- The language scan of `__l` is the `filterMap` of `listEntry` over the
language list, appended to the accumulator, whenever every language's strict
lookup succeeds. -/
theorem dunderLGo_filterMap (cb : Collab) (st : State) (key : String) (scope : Scope)
    (D : List (String × Value)) (hD : st.dictionaries = .obj D) :
    ∀ (L : List String) (acc : List String),
      (∀ l ∈ L, ∃ s, getTemplate key true (objGet D l) = .ok (.str s)) →
      dunderLGo cb st key scope L acc = .ok (acc ++ L.filterMap (listEntry cb st key scope D)) := by
  intro L
  induction L with
  | nil => intro acc _; simp [dunderLGo]
  | cons l rest ih =>
    intro acc hok
    obtain ⟨s, hs⟩ := hok l (by simp)
    have hok' : ∀ x ∈ rest, ∃ s, getTemplate key true (objGet D x) = .ok (.str s) :=
      fun x hx => hok x (by simp [hx])
    by_cases hsk : (s == key) = true
    · have hentry : listEntry cb st key scope D l = none := by
        simp [listEntry, hs, Value.strEq, hsk]
      simp only [dunderLGo, hD, jsIndex, okThenBind, hs, Value.strEq, hsk]
      rw [ih acc hok']
      simp [List.filterMap_cons, hentry]
    · have hentry : listEntry cb st key scope D l = some (cb.render (.str s) scope (tagsOf st)) := by
        simp [listEntry, hs, Value.strEq, hsk]
      simp only [dunderLGo, hD, jsIndex, okThenBind, hs, Value.strEq, hsk]
      simp only [Bool.not_false, if_true]
      rw [ih (acc ++ [cb.render (.str s) scope (tagsOf st)]) hok']
      simp [List.filterMap_cons, hentry]

/-- C8: on any loaded state — whatever the current locale, including none —
whose per-language strict lookups all succeed, `__l` returns exactly the
rendered translations of the languages whose strict template differs from
the key, in language-scan order (misses contribute nothing), with no error
when throw-on-failure is off. -/
theorem c8_listAll_scan (cb : Collab) (st : State) (key : String) (scope : Scope)
    (D : List (String × Value))
    (hD : st.dictionaries = .obj D)
    (hthrow : throwOnFailureOf st = false)
    (hok : ∀ l ∈ st.languages, ∃ s, getTemplate key true (objGet D l) = .ok (.str s)) :
    dunderL cb st key scope = .ok (st.languages.filterMap (listEntry cb st key scope D)) := by
  have hpre := preload_nolocale cb st (by rw [hD]; rfl)
  simp only [dunderL, hpre, okThenBind]
  rw [dunderLGo_filterMap cb st key scope D hD st.languages [] hok]
  simp [hthrow]

/-- A renderer that returns the template text itself, making the scan's
output directly readable. -/
def c8Collab : Collab :=
  { c1Collab with render := fun v _ _ => v.asString }

/-- Three known locales, the key present in two of them, and no active
locale configured. -/
def c8State : State :=
  { options := { c1Options with currentLocale := none }
    dictionaries := .obj
      [("en", .obj [("k", .str "K-en")]), ("ru", .obj []), ("de", .obj [("k", .str "K-de")])]
    dictionary := .undefined
    languages := ["en", "ru", "de"] }

/-- Witness for C8: with three locales and the key in two, the scan returns
the two translations in language order. -/
theorem c8_listAll_scan_witness :
    dunderL c8Collab c8State "k" [] =
      .ok (c8State.languages.filterMap (listEntry c8Collab c8State "k" []
        [("en", .obj [("k", .str "K-en")]), ("ru", .obj []), ("de", .obj [("k", .str "K-de")])])) ∧
    c8State.languages.filterMap (listEntry c8Collab c8State "k" []
        [("en", .obj [("k", .str "K-en")]), ("ru", .obj []), ("de", .obj [("k", .str "K-de")])]) =
      ["K-en", "K-de"] :=
  ⟨c8_listAll_scan c8Collab c8State "k" []
      [("en", .obj [("k", .str "K-en")]), ("ru", .obj []), ("de", .obj [("k", .str "K-de")])]
      rfl rfl
      (by intro l hl
          fin_cases hl
          · exact ⟨"K-en", rfl⟩
          · exact ⟨"k", rfl⟩
          · exact ⟨"K-de", rfl⟩),
   rfl⟩

/-! ## C9 -/

/-- The reduce of `loadDictionaries` only ever appends to the language list. -/
theorem foldl_loadDictStep_langs (rc : String → Value) (files : List String) :
    ∀ (acc : List (String × Value)) (langs : List String),
      ∃ new, (files.foldl (loadDictStep rc) (acc, langs)).2 = langs ++ new := by
  induction files with
  | nil => intro acc langs; exact ⟨[], by simp⟩
  | cons f rest ih =>
    intro acc langs
    simp only [List.foldl_cons, loadDictStep]
    split
    · exact ih _ langs
    · obtain ⟨new, hnew⟩ := ih (objSet acc ((splitOnChar '.' f).headD "") (rc f))
        (langs ++ [(splitOnChar '.' f).headD ""])
      exact ⟨(splitOnChar '.' f).headD "" :: new, by rw [hnew, List.append_assoc]; simp⟩

/-- The tail of `loadDictionaries` after the reduce: a successful return
carries the accumulated language list unchanged. -/
theorem loadDict_tail_languages (p : List (String × Value) × List String) (st st' : State)
    (h : (if (objGet p.1 "length").strictEqZero = true
          then Except.error (I18nException.i18nError "zero dictionaries found")
          else Except.ok { st with dictionaries := .obj p.1, languages := p.2 }) = .ok st')
    (hp : ∃ new, p.2 = st.languages ++ new) :
    ∃ new, st'.languages = st.languages ++ new := by
  split at h
  · simp at h
  · obtain ⟨new, hnew⟩ := hp
    exact ⟨new, by rw [← Except.ok.inj h]; simpa using hnew⟩

/-- C9: every successful `loadDictionaries` (first load or reload) leaves the
previous language list as a prefix, in order, and only appends newly
encountered locales — so `getLanguages()` after a reload extends its value
before it, and nothing is ever pruned. -/
theorem c9_languages_append_only (cb : Collab) (st st' : State)
    (h : loadDictionaries cb st = .ok st') :
    ∃ new, st'.languages = st.languages ++ new := by
  cases hlp : st.options.localesPath with
  | none => simp [loadDictionaries, hlp] at h
  | some lp =>
    simp only [loadDictionaries, hlp] at h
    exact loadDict_tail_languages _ st st' h (foldl_loadDictStep_langs _ _ [] st.languages)

/-- A loader whose directory holds a single `en.json` decoding to `{}`. -/
def c9Collab : Collab :=
  { readdir := fun _ => ["en.json"]
    readFile := fun _ => ""
    defaultParser := fun _ => .obj []
    render := fun _ _ _ => "" }

/-- A fresh, unloaded engine state. -/
def c9State : State :=
  { options := c1Options
    dictionaries := .undefined
    dictionary := .undefined
    languages := [] }

/-- The state the concrete load below produces. -/
def c9LoadedState : State :=
  { c9State with dictionaries := .obj [("en", Value.obj [])], languages := ["en"] }

/-- Witness for C9: a concrete load appends `en` to the language list. -/
theorem c9_languages_append_only_witness :
    ∃ new, c9LoadedState.languages = c9State.languages ++ new :=
  c9_languages_append_only c9Collab c9State c9LoadedState rfl

/-! ## C4 -/

/-- The field of a plural object for one category name (plural objects are
never `undefined` at the sites that read them). -/
def pluralProp (o : Value) (k : String) : Value :=
  match jsIndex o k with
  | .ok v => v
  | .error _ => .undefined

/-- The plural-entry selection as the amended claim describes it: for
resolved categories zero, one, two and few, the exact entry first and then
the ladder zero→other→many, one→other, two→few→many, few→many; resolved
categories many and other skip straight to the final fallback; finally
`many`, then `other`. -/
def amendedPick (o : Value) (rule : Rule) : Value :=
  let ladder :=
    match rule with
    | .zero => jsOr (pluralProp o "zero") (jsOr (pluralProp o "other") (pluralProp o "many"))
    | .one => jsOr (pluralProp o "one") (pluralProp o "other")
    | .two => jsOr (pluralProp o "two") (jsOr (pluralProp o "few") (pluralProp o "many"))
    | .few => jsOr (pluralProp o "few") (pluralProp o "many")
    | .many => .undefined
    | .other => .undefined
  jsOr ladder (jsOr (pluralProp o "many") (pluralProp o "other"))

/-- A renderer returning the selected template's text, so the selection is
visible in `__n`'s output. -/
def c4Collab : Collab :=
  { c1Collab with render := fun v _ _ => v.asString }

/-- A plural object defining both `many` and `other`. -/
def c4Dict : Value := .obj [("k", .obj [("many", .str "M"), ("other", .str "O")])]

/-- A resolved state over `c4Dict`. -/
def c4State : State :=
  { options := c1Options
    dictionaries := .obj [("en", c4Dict)]
    dictionary := c4Dict
    languages := ["en"] }

/-- C4 counterexample: for count 100 the resolved category is `other`, and the
plural object defines `other` as `O`; the claim demands the exact `other`
entry, but `__n` returns `M` — the `many` entry — because resolved categories
`many` and `other` have no row in `templateByRule` and fall to
`obj.many ?? obj.other`. -/
theorem c4_other_entry_overridden :
    pluralRulesSelect 100 = Rule.other ∧
    objGet [("many", Value.str "M"), ("other", Value.str "O")] "other" = .str "O" ∧
    dunderN c4Collab c4State 100 "k" [] = .ok (.str "M") ∧
    "M" ≠ "O" :=
  ⟨rfl, rfl, rfl, by decide⟩

/-- C4 amended: for every plural object and count, `__n` renders the entry
`amendedPick` selects — the exact resolved category only for zero, one, two
and few (then their ladders), while resolved categories many and other go
directly to `many` then `other` (so an exact `other` entry is shadowed by a
defined `many`) — and returns the key when the selection is undefined. -/
theorem c4_amended_ladder (cb : Collab) (st : State) (count : Int) (key : String)
    (scope : Scope) (d o : List (String × Value)) (loc : String)
    (hd : st.dictionary = .obj d)
    (h1 : st.dictionaries.isUndef = false)
    (hloc : localeOf st = some loc)
    (hthrow : throwOnFailureOf st = false)
    (hflat : containsChar '.' key = false)
    (ho : objGet d key = .obj o) :
    dunderN cb st count key scope =
      if (amendedPick (.obj o) (pluralRulesSelect count)).isUndef then .ok (.str key)
      else .ok (.str (cb.render (amendedPick (.obj o) (pluralRulesSelect count)) scope (tagsOf st))) := by
  have h2 : st.dictionary.isUndef = false := by rw [hd]; rfl
  have hpre := preload_resolved cb st loc h1 h2 hloc
  have hraw : dunderR cb st key = .ok (.obj o) := by
    simp only [dunderR, hpre, okThenBind, getTemplate, hflat]
    simp [hd, jsIndex, ho, Value.isUndef, Value.isStr, hthrow]
  simp only [dunderN, hraw, okThenBind]
  cases hr : pluralRulesSelect count <;>
    simp [hr, amendedPick, pluralProp, jsIndex, Value.isUndef, hthrow]

/-- A plural object defining only `one`. -/
def c4wDict : Value := .obj [("k", .obj [("one", .str "ONE")])]

/-- A resolved state over `c4wDict`. -/
def c4wState : State :=
  { options := c1Options
    dictionaries := .obj [("en", c4wDict)]
    dictionary := c4wDict
    languages := ["en"] }

/-- Witness for C4 amended: with count 1 the selection follows `amendedPick`
on the concrete plural object. -/
theorem c4_amended_ladder_witness :
    dunderN c4Collab c4wState 1 "k" [] =
      if (amendedPick (.obj [("one", Value.str "ONE")]) (pluralRulesSelect 1)).isUndef then
        .ok (.str "k")
      else
        .ok (.str (c4Collab.render (amendedPick (.obj [("one", Value.str "ONE")])
          (pluralRulesSelect 1)) [] (tagsOf c4wState))) :=
  c4_amended_ladder c4Collab c4wState 1 "k" [] [("k", .obj [("one", .str "ONE")])]
    [("one", .str "ONE")] "en" rfl rfl rfl rfl rfl rfl
